import Mathlib

/-!
Shallow embedding of the go-mmap/mmap package (mmap.go plus the
platform openFile/Close paths) and proofs about its I/O surface.

A Go `*File` handle is modelled by `Mmap.File`:
* `data : Option (List Nat)` models the `data []byte` field; `none` is the
  nil slice (the zero-length-open state and the closed state), `some d` a
  mapped extent of bytes (each a value < 256, carried as `Nat`).
* `c : Int` models the `c int` cursor; Go `int` arithmetic that can
  overflow (only the `Seek` arithmetic) is wrapped with `wrap64`.
* `flag : Nat` models the `flag Flag` bitmask, with `Read = 0x1` and
  `Write = 0x2` as in mmap.go.

Go operations that can panic (slice/index expressions with a negative
index, reachable through a cursor left negative by `Seek`) return
`Res.panics`; normal returns are `Res.ok` of the Go results plus the
updated handle.  Operations on a nil `*File` receiver (`os.ErrInvalid`)
are outside the model: every `Mmap.File` is a non-nil handle.
-/

namespace Mmap

/-- Error values the mmap package returns: `errBadFD`
("bad file descriptor"), `io.EOF`, `io.ErrShortWrite`,
`errors.New ("mmap: closed")`, the formatted invalid-offset errors of
`ReadAt`/`WriteAt`, `"mmap: invalid whence"` and
`"mmap: negative position"` of `Seek`. -/
inductive Err where
  | badFD
  | eof
  | shortWrite
  | closed
  | invalidOffset (off : Int)
  | invalidWhence
  | negativePosition
  deriving DecidableEq, Repr

/-- The `File` struct of mmap.go: mapped byte extent (`none` = Go nil
slice), cursor, and open-mode flag bitmask.  The `fd`/`fi` fields carry
OS handles and the stat snapshot and play no part in the I/O logic
modelled here. -/
structure File where
  data : Option (List Nat)
  c : Int
  flag : Nat
  deriving DecidableEq, Repr

/-- Outcome of a Go call that can panic: `ok` carries the Go return
values, `panics` marks a run-time panic (negative slice index). -/
inductive Res (α : Type) where
  | ok (v : α)
  | panics
  deriving DecidableEq, Repr

/-- `Read = 0x1` of mmap.go. -/
def readFlag : Nat := 0x1

/-- `Write = 0x2` of mmap.go. -/
def writeFlag : Nat := 0x2

/-- `f.rflag()`: `f.flag & Read != 0`. -/
def File.rflag (f : File) : Bool := f.flag &&& readFlag != 0

/-- `f.wflag()`: `f.flag & Write != 0`. -/
def File.wflag (f : File) : Bool := f.flag &&& writeFlag != 0

/-- The byte extent as a list; a nil slice reads as the empty list,
matching Go's `len`/slicing treatment of nil. -/
def File.bytes (f : File) : List Nat := f.data.getD []

/-- `Len()`: `len(f.data)`. -/
def File.len (f : File) : Nat := f.bytes.length

/-- Result of Go `copy(dst[off:], p)` on a list: the bytes of `p` that
fit are spliced over `d` at `off`, everything else is unchanged.
`copy` transfers `n = min (len p) (len d - off)` bytes. -/
def splice (d : List Nat) (off : Nat) (p : List Nat) : List Nat :=
  d.take off ++ p.take (min p.length (d.length - off)) ++
    d.drop (off + min p.length (d.length - off))

/-- Two's-complement wrap of 64-bit Go `int` arithmetic. -/
def wrap64 (x : Int) : Int := (x + 2 ^ 63) % 2 ^ 64 - 2 ^ 63

/-- `Read(p)`: flag check, EOF check (`f.c >= len(f.data)`), then
`n := copy(p, f.data[f.c:]); f.c += n`.  The slice expression
`f.data[f.c:]` panics when the cursor is negative.  The caller's buffer
is represented by its length `plen`; the returned list holds the bytes
copied into it (its length is Go's return count `n`). -/
def File.read (f : File) (plen : Nat) : Res (List Nat × Option Err × File) :=
  if !f.rflag then .ok ([], some .badFD, f)
  else if (f.len : Int) ≤ f.c then .ok ([], some .eof, f)
  else if f.c < 0 then .panics
  else
    let r := (f.bytes.drop f.c.toNat).take plen
    .ok (r, none, { f with c := f.c + r.length })

/-- `ReadByte()`: flag check, EOF check, then `v := f.data[f.c]; f.c++`.
The index expression panics when the cursor is negative. -/
def File.readByte (f : File) : Res (Nat × Option Err × File) :=
  if !f.rflag then .ok (0, some .badFD, f)
  else if (f.len : Int) ≤ f.c then .ok (0, some .eof, f)
  else if f.c < 0 then .panics
  else .ok (f.bytes.getD f.c.toNat 0, none, { f with c := f.c + 1 })

/-- `ReadAt(p, off)`: flag check, `f.data == nil` check ("mmap: closed"),
offset bounds check, then `n := copy(p, f.data[off:])`, with `io.EOF`
when fewer than `len(p)` bytes were available.  The handle is not
mutated.  The returned list holds the bytes copied into `p`. -/
def File.readAt (f : File) (plen : Nat) (off : Int) : List Nat × Option Err :=
  if !f.rflag then ([], some .badFD)
  else
    match f.data with
    | none => ([], some .closed)
    | some d =>
      if off < 0 ∨ (d.length : Int) < off then ([], some (.invalidOffset off))
      else
        let r := (d.drop off.toNat).take plen
        if r.length < plen then (r, some .eof) else (r, none)

/-- `Write(p)`: flag check, short-write check (`f.c >= len(f.data)`),
then `n := copy(f.data[f.c:], p); f.c += n`, with `io.ErrShortWrite`
when `len(p) > n`.  The slice expression panics when the cursor is
negative. -/
def File.write (f : File) (p : List Nat) : Res (Nat × Option Err × File) :=
  if !f.wflag then .ok (0, some .badFD, f)
  else if (f.len : Int) ≤ f.c then .ok (0, some .shortWrite, f)
  else if f.c < 0 then .panics
  else
    let d := f.bytes
    let n := min p.length (d.length - f.c.toNat)
    let f' : File := { f with data := some (splice d f.c.toNat p), c := f.c + n }
    if n < p.length then .ok (n, some .shortWrite, f') else .ok (n, none, f')

/-- `WriteByte(c)`: flag check, short-write check, then
`f.data[f.c] = c; f.c++`.  The index expression panics when the cursor
is negative. -/
def File.writeByte (f : File) (b : Nat) : Res (Option Err × File) :=
  if !f.wflag then .ok (some .badFD, f)
  else if (f.len : Int) ≤ f.c then .ok (some .shortWrite, f)
  else if f.c < 0 then .panics
  else .ok (none, { f with data := some (f.bytes.set f.c.toNat b), c := f.c + 1 })

/-- `WriteAt(p, off)`: flag check, `f.data == nil` check ("mmap: closed"),
offset bounds check, then `n := copy(f.data[off:], p)`, with
`io.ErrShortWrite` when `n < len(p)`.  The cursor is untouched. -/
def File.writeAt (f : File) (p : List Nat) (off : Int) : Nat × Option Err × File :=
  if !f.wflag then (0, some .badFD, f)
  else
    match f.data with
    | none => (0, some .closed, f)
    | some d =>
      if off < 0 ∨ (d.length : Int) < off then (0, some (.invalidOffset off), f)
      else
        let n := min p.length (d.length - off.toNat)
        let f' : File := { f with data := some (splice d off.toNat p) }
        if n < p.length then (n, some .shortWrite, f') else (n, none, f')

/-- `Seek(offset, whence)`: whence 0/1/2 are `io.SeekStart`,
`io.SeekCurrent`, `io.SeekEnd`.  The cursor is assigned first
(`f.c = int(offset)`, `f.c += int(offset)`, or
`f.c = len(f.data) - int(offset)`, each with 64-bit `int` wraparound);
only afterwards is `f.c < 0` checked, and on that error the (negative)
cursor assignment is kept.  An unknown whence leaves the handle
untouched. -/
def File.seek (f : File) (offset : Int) (whence : Nat) :
    (Int × Option Err) × File :=
  match whence with
  | 0 => seekSet f (wrap64 offset)
  | 1 => seekSet f (wrap64 (f.c + offset))
  | 2 => seekSet f (wrap64 ((f.len : Int) - offset))
  | _ => ((0, some .invalidWhence), f)
where
  /-- The tail of `Seek` after the cursor assignment: the negative-check
  and the return. -/
  seekSet (f : File) (c' : Int) : (Int × Option Err) × File :=
    if c' < 0 then ((0, some .negativePosition), { f with c := c' })
    else ((c', none), { f with c := c' })

/-- `Close()` (mmap_windows.go / the unix variant): a nil extent returns
nil immediately; otherwise the extent reference is cleared and the
region unmapped.  The OS unmap call is modelled as succeeding; the
finalizer bookkeeping and fd close have no observable effect on the
I/O surface. -/
def File.close (f : File) : Option Err × File :=
  match f.data with
  | none => (none, f)
  | some _ => (none, { f with data := none })

/-- The handle `openFile` builds on its `size == 0` path
(`return &File{fd: f, flag: fl, fi: fi}, nil`): nil extent, zero
cursor, the requested flag. -/
def openEmpty (fl : Nat) : File := { data := none, c := 0, flag := fl }

/- ------------------------------------------------------------------ -/
/- Helper lemmas                                                      -/
/- ------------------------------------------------------------------ -/

theorem wrap64_eq_self {x : Int} (h1 : -2 ^ 63 ≤ x) (h2 : x < 2 ^ 63) :
    wrap64 x = x := by
  unfold wrap64
  omega

theorem splice_full {d p : List Nat} {off : Nat}
    (h : off + p.length ≤ d.length) :
    splice d off p = d.take off ++ p ++ d.drop (off + p.length) := by
  unfold splice
  have hm : min p.length (d.length - off) = p.length := by omega
  rw [hm, List.take_length]

theorem splice_length {d p : List Nat} {off : Nat} (h : off ≤ d.length) :
    (splice d off p).length = d.length := by
  unfold splice
  simp only [List.length_append, List.length_take, List.length_drop]
  omega

theorem take_one_drop {d : List Nat} {k : Nat} (h : k < d.length) :
    (d.drop k).take 1 = [d.getD k 0] := by
  induction d generalizing k with
  | nil => simp at h
  | cons a t ih =>
    cases k with
    | zero => rfl
    | succ k => exact ih (by simpa using h)

theorem close_state (f : File) :
    (f.close).2 = { f with data := none } := by
  cases f with
  | mk data c flag => cases data <;> rfl

theorem seek_zero (f : File) (off : Int) :
    f.seek off 0 = File.seek.seekSet f (wrap64 off) := rfl

/- ------------------------------------------------------------------ -/
/- Claims                                                             -/
/- ------------------------------------------------------------------ -/

/-- Claim C2: the spec says a `Seek` to a negative computed position
returns the negative-position error and leaves the cursor unchanged.
The code assigns the cursor before the negativity check and keeps the
assignment on the error path: on a 5-byte read-only handle with cursor
0, `Seek(-100, SeekStart)` returns the error yet sets the cursor to
-100. -/
theorem C2_seek_negative_changes_cursor :
    File.seek { data := some [104, 101, 108, 108, 111], c := 0, flag := 1 } (-100) 0
      = ((0, some .negativePosition),
         { data := some [104, 101, 108, 108, 111], c := -100, flag := 1 }) ∧
    ({ data := some [104, 101, 108, 108, 111], c := -100, flag := 1 } : File).c ≠
      ({ data := some [104, 101, 108, 108, 111], c := 0, flag := 1 } : File).c := by
  decide

/-- Claim C3, counterexample: the claim says `Seek(d, SeekEnd)` sets the
cursor to `L + d`.  On a 5-byte handle, `Seek(2, SeekEnd)` returns
position 3 (= 5 - 2), not 7 (= 5 + 2). -/
theorem C3_counterexample :
    (File.seek { data := some [104, 101, 108, 108, 111], c := 0, flag := 1 } 2 2).1
      = (3, none) ∧ (3 : Int) ≠ (5 : Int) + 2 := by
  decide

/-- Claim C3 (amended): `Seek(d, SeekStart)` sets the cursor to `d`,
`Seek(d, SeekCurrent)` to `c + d`, and `Seek(d, SeekEnd)` to `L - d`
(the offset is SUBTRACTED from the end position), returning the new
position on success; stated under the nonnegativity the success path
requires and 64-bit representability of the computed position. -/
theorem C3_seek_semantics (f : File) (d : Int) :
    (0 ≤ d → d < 2 ^ 63 →
      f.seek d 0 = ((d, none), { f with c := d })) ∧
    (0 ≤ f.c + d → f.c + d < 2 ^ 63 →
      f.seek d 1 = ((f.c + d, none), { f with c := f.c + d })) ∧
    (0 ≤ (f.len : Int) - d → (f.len : Int) - d < 2 ^ 63 →
      f.seek d 2 = (((f.len : Int) - d, none), { f with c := (f.len : Int) - d })) := by
  refine ⟨fun h1 h2 => ?_, fun h1 h2 => ?_, fun h1 h2 => ?_⟩
  · show File.seek.seekSet _ (wrap64 d) = _
    rw [wrap64_eq_self (by omega) h2]
    unfold File.seek.seekSet
    rw [if_neg (by omega)]
  · show File.seek.seekSet _ (wrap64 (f.c + d)) = _
    rw [wrap64_eq_self (by omega) h2]
    unfold File.seek.seekSet
    rw [if_neg (by omega)]
  · show File.seek.seekSet _ (wrap64 ((f.len : Int) - d)) = _
    rw [wrap64_eq_self (by omega) h2]
    unfold File.seek.seekSet
    rw [if_neg (by omega)]

/-- Witness for C3 on a 3-byte handle with cursor 1 and offset 2:
start→2, current→3, end→1. -/
theorem C3_seek_semantics_witness :
    File.seek { data := some [104, 101, 108], c := 1, flag := 1 } 2 0
      = ((2, none), { data := some [104, 101, 108], c := 2, flag := 1 }) ∧
    File.seek { data := some [104, 101, 108], c := 1, flag := 1 } 2 1
      = ((3, none), { data := some [104, 101, 108], c := 3, flag := 1 }) ∧
    File.seek { data := some [104, 101, 108], c := 1, flag := 1 } 2 2
      = ((1, none), { data := some [104, 101, 108], c := 1, flag := 1 }) := by
  obtain ⟨h1, h2, h3⟩ :=
    C3_seek_semantics { data := some [104, 101, 108], c := 1, flag := 1 } 2
  exact ⟨h1 (by decide) (by decide), h2 (by decide) (by decide),
    h3 (by decide) (by decide)⟩

/-- Claim C8: the handle for a zero-length file has no mapped extent,
`Len()` returns 0, and (on a read-capable handle) `Read` with any
buffer and `ReadByte` immediately return `io.EOF` with zero bytes. -/
theorem C8_open_zero_length (fl plen : Nat)
    (hr : (openEmpty fl).rflag = true) :
    (openEmpty fl).data = none ∧
    (openEmpty fl).len = 0 ∧
    (openEmpty fl).read plen = .ok ([], some .eof, openEmpty fl) ∧
    (openEmpty fl).readByte = .ok (0, some .eof, openEmpty fl) := by
  have hr' : ({ data := none, c := 0, flag := fl } : File).rflag = true := hr
  refine ⟨rfl, rfl, ?_, ?_⟩ <;>
    simp [File.read, File.readByte, hr', openEmpty, File.len, File.bytes]

/-- Witness for C8: a zero-length file opened with the `Read` flag. -/
theorem C8_open_zero_length_witness :
    (openEmpty 1).data = none ∧
    (openEmpty 1).len = 0 ∧
    (openEmpty 1).read 4 = .ok ([], some .eof, openEmpty 1) ∧
    (openEmpty 1).readByte = .ok (0, some .eof, openEmpty 1) :=
  C8_open_zero_length 1 4 (by decide)

/-- Claim C9: on a never-closed handle for a zero-length file, every
mode-permitted `ReadAt` or `WriteAt` call — any buffer, any offset,
including an empty buffer at offset 0 — fails with the "mmap: closed"
error, because the nil extent of the zero-length open state is the
very state `ReadAt`/`WriteAt` test for closedness. -/
theorem C9_zero_length_readAt_writeAt_closed (fl plen : Nat)
    (p : List Nat) (off : Int) :
    ((openEmpty fl).rflag = true →
      (openEmpty fl).readAt plen off = ([], some .closed)) ∧
    ((openEmpty fl).wflag = true →
      (openEmpty fl).writeAt p off = (0, some .closed, openEmpty fl)) := by
  constructor <;> intro h <;> simp only [openEmpty] at h <;>
    simp [File.readAt, File.writeAt, h, openEmpty]

/-- Witness for C9: a `Read|Write` zero-length handle, empty buffer at
offset 0. -/
theorem C9_zero_length_witness :
    (openEmpty 3).readAt 0 0 = ([], some .closed) ∧
    (openEmpty 3).writeAt [] 0 = (0, some .closed, openEmpty 3) :=
  ⟨(C9_zero_length_readAt_writeAt_closed 3 0 [] 0).1 (by decide),
   (C9_zero_length_readAt_writeAt_closed 3 0 [] 0).2 (by decide)⟩

/-- Claim C10: after `Seek(-2, SeekStart)` on an open 5-byte
`Read|Write` handle, `Seek` has returned the negative-position error
with the cursor left at -2, and each cursor-based call — `Read`,
`ReadByte`, `Write`, `WriteByte` — panics on the negative slice index
instead of returning an error value. -/
theorem C10_seek_negative_then_panics :
    (File.seek { data := some [104, 101, 108, 108, 111], c := 0, flag := 3 } (-2) 0).1
      = (0, some .negativePosition) ∧
    (File.seek { data := some [104, 101, 108, 108, 111], c := 0, flag := 3 } (-2) 0).2
      = { data := some [104, 101, 108, 108, 111], c := -2, flag := 3 } ∧
    ({ data := some [104, 101, 108, 108, 111], c := -2, flag := 3 } : File).c < 0 ∧
    File.read { data := some [104, 101, 108, 108, 111], c := -2, flag := 3 } 1 = .panics ∧
    File.readByte { data := some [104, 101, 108, 108, 111], c := -2, flag := 3 } = .panics ∧
    File.write { data := some [104, 101, 108, 108, 111], c := -2, flag := 3 } [7] = .panics ∧
    File.writeByte { data := some [104, 101, 108, 108, 111], c := -2, flag := 3 } 7 = .panics := by
  decide

/-- Claim C1, counterexample: the claim says every I/O call on a closed
handle, including `Read`, reports the closed/invalid condition "rather
than ... a different condition such as end-of-stream".  Closing an
open 2-byte `Read|Write` handle and calling `Read` yields `io.EOF` —
the end-of-stream condition, which is neither the "mmap: closed" error
nor an invalid-handle error. -/
theorem C1_counterexample :
    (File.close { data := some [104, 105], c := 0, flag := 3 }).2
      = { data := none, c := 0, flag := 3 } ∧
    File.read { data := none, c := 0, flag := 3 } 1
      = .ok ([], some .eof, { data := none, c := 0, flag := 3 }) ∧
    Err.eof ≠ Err.closed := by
  decide

/-- Claim C1 (amended): after `Close()` on a `Read|Write` handle with a
nonnegative cursor, `ReadAt`/`WriteAt` fail with "mmap: closed", a
second `Close()` succeeds, and the cursor-based calls never touch the
(unmapped) extent but report end-of-stream (`Read`/`ReadByte`, zero
bytes) or short-write (`Write`/`WriteByte`, zero bytes) instead of the
closed condition. -/
theorem C1_close_then_io (f : File) (plen : Nat) (p : List Nat)
    (off : Int) (b : Nat)
    (hr : f.rflag = true) (hw : f.wflag = true) (hc : 0 ≤ f.c) :
    (f.close).2.readAt plen off = ([], some .closed) ∧
    (f.close).2.writeAt p off = (0, some .closed, (f.close).2) ∧
    ((f.close).2).close = (none, (f.close).2) ∧
    (f.close).2.read plen = .ok ([], some .eof, (f.close).2) ∧
    (f.close).2.readByte = .ok (0, some .eof, (f.close).2) ∧
    (f.close).2.write p = .ok (0, some .shortWrite, (f.close).2) ∧
    (f.close).2.writeByte b = .ok (some .shortWrite, (f.close).2) := by
  rw [close_state f]
  have hr' : ({ f with data := none } : File).rflag = true := hr
  have hw' : ({ f with data := none } : File).wflag = true := hw
  refine ⟨?_, ?_, ?_, ?_, ?_, ?_, ?_⟩ <;>
    simp [File.readAt, File.writeAt, File.close, File.read, File.readByte,
      File.write, File.writeByte, hr', hw', File.len, File.bytes, hc]

/-- Witness for C1 on a 1-byte `Read|Write` handle. -/
theorem C1_close_then_io_witness :
    ((File.close { data := some [104], c := 0, flag := 3 }).2).readAt 1 0
      = ([], some .closed) ∧
    ((File.close { data := some [104], c := 0, flag := 3 }).2).writeAt [7] 0
      = (0, some .closed, (File.close { data := some [104], c := 0, flag := 3 }).2) ∧
    ((File.close { data := some [104], c := 0, flag := 3 }).2).close
      = (none, (File.close { data := some [104], c := 0, flag := 3 }).2) ∧
    ((File.close { data := some [104], c := 0, flag := 3 }).2).read 1
      = .ok ([], some .eof, (File.close { data := some [104], c := 0, flag := 3 }).2) ∧
    ((File.close { data := some [104], c := 0, flag := 3 }).2).readByte
      = .ok (0, some .eof, (File.close { data := some [104], c := 0, flag := 3 }).2) ∧
    ((File.close { data := some [104], c := 0, flag := 3 }).2).write [7]
      = .ok (0, some .shortWrite, (File.close { data := some [104], c := 0, flag := 3 }).2) ∧
    ((File.close { data := some [104], c := 0, flag := 3 }).2).writeByte 7
      = .ok (some .shortWrite, (File.close { data := some [104], c := 0, flag := 3 }).2) :=
  C1_close_then_io { data := some [104], c := 0, flag := 3 } 1 [7] 0 7
    (by decide) (by decide) (by decide)

/-- Claim C5: on a handle opened without the `Write` flag, `Write`,
`WriteByte` and `WriteAt` all fail with the "bad file descriptor"
error and return the handle unchanged — neither the mapped bytes nor
the cursor is modified. -/
theorem C5_readonly_writes_fail (f : File) (p : List Nat) (b : Nat)
    (off : Int) (hw : f.wflag = false) :
    f.write p = .ok (0, some .badFD, f) ∧
    f.writeByte b = .ok (some .badFD, f) ∧
    f.writeAt p off = (0, some .badFD, f) := by
  unfold File.write File.writeByte File.writeAt
  rw [hw]
  simp

/-- Witness for C5: a read-only 3-byte handle. -/
theorem C5_readonly_writes_fail_witness :
    File.write { data := some [1, 2, 3], c := 0, flag := 1 } [5]
      = .ok (0, some .badFD, { data := some [1, 2, 3], c := 0, flag := 1 }) ∧
    File.writeByte { data := some [1, 2, 3], c := 0, flag := 1 } 7
      = .ok (some .badFD, { data := some [1, 2, 3], c := 0, flag := 1 }) ∧
    File.writeAt { data := some [1, 2, 3], c := 0, flag := 1 } [5] 0
      = (0, some .badFD, { data := some [1, 2, 3], c := 0, flag := 1 }) :=
  C5_readonly_writes_fail { data := some [1, 2, 3], c := 0, flag := 1 } [5] 7 0
    (by decide)

/-- Claim C4, counterexample: the claim quantifies over every handle
with write capability on a file of N bytes and every in-range
offset/payload, which includes the zero-length file (N = 0) with the
empty payload at offset 0.  There `WriteAt` does not return success:
the nil extent trips the "mmap: closed" check. -/
theorem C4_counterexample :
    (openEmpty 3).wflag = true ∧
    (0 : Int) ≤ 0 ∧
    (0 : Int) + (([] : List Nat).length : Int) ≤ ((openEmpty 3).len : Int) ∧
    (openEmpty 3).writeAt [] 0 = (0, some .closed, openEmpty 3) ∧
    some Err.closed ≠ (none : Option Err) := by
  decide

/-- Claim C4 (amended): on a handle with write capability whose extent
is mapped (a file of N ≥ 1 bytes), for every payload `p` and offset
`off` with `0 ≤ off` and `off + len p ≤ N`, `WriteAt(p, off)` returns
count `len p` with no error, and the extent afterwards is the old
bytes with `p` spliced in at `[off, off + len p)` — every byte outside
that range, and the cursor, unchanged. -/
theorem C4_writeAt_splices (f : File) (d p : List Nat) (off : Nat)
    (hw : f.wflag = true) (hd : f.data = some d)
    (hlen : off + p.length ≤ d.length) :
    f.writeAt p (off : Int) =
      (p.length, none,
        { f with data := some (d.take off ++ p ++ d.drop (off + p.length)) }) := by
  have hcond : ¬ (((off : Nat) : Int) < 0 ∨ ((d.length : Int) < ((off : Nat) : Int))) := by
    omega
  have htn : (((off : Nat) : Int)).toNat = off := by omega
  simp only [File.writeAt, hd, hw, Bool.not_true, Bool.false_eq_true, if_false]
  rw [if_neg hcond, htn]
  have hn : min p.length (d.length - off) = p.length := by omega
  rw [hn, if_neg (lt_irrefl _), splice_full hlen]

/-- Witness for C4: the spec's own example — seed
"hello world!\nbye.\n", `WriteAt("bye!\n", 3)` yields
"helbye!\nrld!\nbye.\n" with count 5 and no error. -/
theorem C4_writeAt_splices_witness :
    File.writeAt
      { data := some [104, 101, 108, 108, 111, 32, 119, 111, 114, 108, 100, 33, 10,
                      98, 121, 101, 46, 10], c := 0, flag := 3 }
      [98, 121, 101, 33, 10] 3
      = (5, none,
         { data := some [104, 101, 108, 98, 121, 101, 33, 10, 114, 108, 100, 33, 10,
                         98, 121, 101, 46, 10], c := 0, flag := 3 }) := by
  have h := C4_writeAt_splices
    { data := some [104, 101, 108, 108, 111, 32, 119, 111, 114, 108, 100, 33, 10,
                    98, 121, 101, 46, 10], c := 0, flag := 3 }
    [104, 101, 108, 108, 111, 32, 119, 111, 114, 108, 100, 33, 10,
     98, 121, 101, 46, 10]
    [98, 121, 101, 33, 10] 3 (by decide) rfl (by decide)
  exact h

/-- Claim C6, counterexample: the claim quantifies over every writable
handle and cursor, including the negative cursor `Seek` can leave
behind.  On a 5-byte `Read|Write` handle, `Seek(-3, SeekStart)` leaves
the cursor at -3; that state satisfies the claim's overflow-branch
guard (`c < L` and `len p > L - c` for a 9-byte payload), yet `Write`
panics on the negative slice index rather than copying `L - c`
bytes. -/
theorem C6_counterexample :
    (File.seek { data := some [104, 101, 108, 108, 111], c := 0, flag := 3 } (-3) 0).2
      = { data := some [104, 101, 108, 108, 111], c := -3, flag := 3 } ∧
    ({ data := some [104, 101, 108, 108, 111], c := -3, flag := 3 } : File).wflag = true ∧
    ({ data := some [104, 101, 108, 108, 111], c := -3, flag := 3 } : File).c
      < (({ data := some [104, 101, 108, 108, 111], c := -3, flag := 3 } : File).len : Int) ∧
    (({ data := some [104, 101, 108, 108, 111], c := -3, flag := 3 } : File).len : Int)
        - ({ data := some [104, 101, 108, 108, 111], c := -3, flag := 3 } : File).c
      < ((List.replicate 9 (0 : Nat)).length : Int) ∧
    File.write { data := some [104, 101, 108, 108, 111], c := -3, flag := 3 }
      (List.replicate 9 0) = .panics := by
  decide

/-- Claim C6 (amended): on a writable handle whose cursor is
nonnegative: if `c ≥ L`, `Write(p)` returns count 0 with the
short-write error and the handle unchanged; if `c < L` and
`len p > L - c`, it copies exactly the `L - c` bytes that fit, advances
the cursor to `L`, returns that partial count with the short-write
error, and the extent keeps its length `L`; neither case panics. -/
theorem C6_write_short (f : File) (p : List Nat)
    (hw : f.wflag = true) (hc : 0 ≤ f.c) :
    ((f.len : Int) ≤ f.c → f.write p = .ok (0, some .shortWrite, f)) ∧
    (f.c < (f.len : Int) → (f.len : Int) - f.c < (p.length : Int) →
      f.write p = .ok (f.len - f.c.toNat, some .shortWrite,
        { f with data := some (splice f.bytes f.c.toNat p), c := (f.len : Int) }) ∧
      (splice f.bytes f.c.toNat p).length = f.len) := by
  have hb : f.bytes.length = f.len := rfl
  constructor
  · intro h
    simp only [File.write, hw, Bool.not_true, Bool.false_eq_true, if_false]
    rw [if_pos h]
  · intro h1 h2
    have hn : min p.length (f.bytes.length - f.c.toNat) = f.len - f.c.toNat := by
      omega
    constructor
    · simp only [File.write, hw, Bool.not_true, Bool.false_eq_true, if_false]
      rw [if_neg (by omega), if_neg (by omega), hn,
        if_pos (by omega : f.len - f.c.toNat < p.length)]
      have hcur : f.c + ((f.len - f.c.toNat : Nat) : Int) = (f.len : Int) := by
        omega
      rw [hcur]
    · have : (splice f.bytes f.c.toNat p).length = f.bytes.length :=
        splice_length (by omega)
      omega

/-- Witness for C6: the at-end branch on a 3-byte handle with cursor 5,
and the overflow branch on a 3-byte handle with cursor 1 and a 3-byte
payload (2 bytes fit). -/
theorem C6_write_short_witness :
    File.write { data := some [1, 2, 3], c := 5, flag := 2 } [9]
      = .ok (0, some .shortWrite, { data := some [1, 2, 3], c := 5, flag := 2 }) ∧
    File.write { data := some [1, 2, 3], c := 1, flag := 2 } [9, 9, 9]
      = .ok (2, some .shortWrite, { data := some [1, 9, 9], c := 3, flag := 2 }) := by
  constructor
  · exact (C6_write_short { data := some [1, 2, 3], c := 5, flag := 2 } [9]
      (by decide) (by decide)).1 (by decide)
  · exact ((C6_write_short { data := some [1, 2, 3], c := 1, flag := 2 } [9, 9, 9]
      (by decide) (by decide)).2 (by decide) (by decide)).1

/-- Claim C7: on a read-capable handle with `k` inside the extent,
`Seek(k, SeekStart)` succeeds and sets the cursor to `k`, the following
`ReadByte` returns byte `k` of the extent, and `ReadAt` with a 1-byte
buffer at offset `k` returns that same byte with no error. -/
theorem C7_seek_readByte_eq_readAt (f : File) (k : Nat)
    (hr : f.rflag = true) (hk : k < f.len) (hbig : f.len < 2 ^ 63) :
    f.seek (k : Int) 0 = (((k : Int), none), { f with c := (k : Int) }) ∧
    ({ f with c := (k : Int) } : File).readByte
      = .ok (f.bytes.getD k 0, none, { f with c := (k : Int) + 1 }) ∧
    f.readAt 1 (k : Int) = ([f.bytes.getD k 0], none) := by
  refine ⟨?_, ?_, ?_⟩
  · rw [seek_zero, wrap64_eq_self (by omega) (by omega)]
    unfold File.seek.seekSet
    rw [if_neg (by omega)]
  · have hr' : ({ f with c := (k : Int) } : File).rflag = true := hr
    have hlen2 : ({ f with c := (k : Int) } : File).len = f.len := rfl
    have hby : ({ f with c := (k : Int) } : File).bytes = f.bytes := rfl
    simp only [File.readByte, hr', Bool.not_true, Bool.false_eq_true, if_false,
      hlen2, hby]
    rw [if_neg (by omega), if_neg (by omega)]
    have htn : (((k : Nat) : Int)).toNat = k := by omega
    rw [htn]
  · cases hd : f.data with
    | none =>
      exfalso
      have : f.len = 0 := by simp [File.len, File.bytes, hd]
      omega
    | some d =>
      have hdl : d.length = f.len := by simp [File.len, File.bytes, hd]
      have hby : f.bytes = d := by simp [File.bytes, hd]
      simp only [File.readAt, hr, Bool.not_true, Bool.false_eq_true, if_false, hd]
      rw [if_neg (by omega)]
      have htn : (((k : Nat) : Int)).toNat = k := by omega
      rw [htn, take_one_drop (by omega)]
      rw [if_neg (by simp), hby]

/-- Witness for C7 on the 3-byte handle [104, 105, 106] at k = 1. -/
theorem C7_seek_readByte_eq_readAt_witness :
    File.seek { data := some [104, 105, 106], c := 0, flag := 1 } 1 0
      = ((1, none), { data := some [104, 105, 106], c := 1, flag := 1 }) ∧
    File.readByte { data := some [104, 105, 106], c := 1, flag := 1 }
      = .ok (105, none, { data := some [104, 105, 106], c := 2, flag := 1 }) ∧
    File.readAt { data := some [104, 105, 106], c := 0, flag := 1 } 1 1
      = ([105], none) :=
  C7_seek_readByte_eq_readAt { data := some [104, 105, 106], c := 0, flag := 1 } 1
    (by decide) (by decide) (by decide)

end Mmap
